import Mathlib

/-!
Shallow embedding of the brokkoly dispatch-and-delivery subsystem
(`brokkoly/__init__.py` and `brokkoly/retry.py`).

Python runtime values of the JSON payloads are modelled by `Value`, Python
dictionaries by association lists in insertion order, a raised exception
that a claim cares about by an `Except` error value, and the side effects
of a dispatch (delivery-log creation, broker submission, log pruning) by an
explicit effect trace.
-/

/-- Runtime values of the JSON-ish payloads the producer handles. -/
inductive Value where
  | vint : Int → Value
  | vstr : String → Value
  | vbool : Bool → Value
  | vobj : List (String × Value) → Value

/-- The Python types that appear as argument annotations in this code base.
`PyType.dict` stands for `dict`, matching `Value.vobj`. -/
inductive PyType where
  | str
  | int
  | bool
  | dict
deriving DecidableEq

/-- Python `isinstance(value, t)`.  Note `isinstance(True, int)` is true in
Python because `bool` subclasses `int`. -/
def isinstance : Value → PyType → Bool
  | .vstr _, .str => true
  | .vint _, .int => true
  | .vbool _, .bool => true
  | .vbool _, .int => true
  | .vobj _, .dict => true
  | _, _ => false

/-- Lookup in a Python dict modelled as an association list (keys unique,
insertion order). -/
def dictGet {α : Type} : List (String × α) → String → Option α
  | [], _ => none
  | (k, v) :: rest, key => if k = key then some v else dictGet rest key

namespace ExponentialBackoff

/-- `ExponentialBackoff.countdown` from `brokkoly/retry.py` lines 78-80:
`wait = pow(2, retry_count + 1); return wait if self._max_wait_seconds < wait
else self._max_wait_seconds`.  `maxWaitSeconds = none` models
`max_wait_seconds is None`; the result `none` models the `TypeError` Python 3
raises when evaluating `None < wait`. -/
def countdown (maxWaitSeconds : Option Nat) (retryCount : Nat) : Option Nat :=
  let wait := 2 ^ (retryCount + 1)
  match maxWaitSeconds with
  | none => none
  | some m => some (if m < wait then wait else m)

end ExponentialBackoff

namespace FibonacciBackoff

/-- The loop of `FibonacciBackoff.countdown` (`brokkoly/retry.py` lines 49-55):
`n` remaining iterations of `for _ in range(retry_count)` with the current pair
`(x, y)`; each iteration sets `(x, y) = (y, x + y)` and returns the ceiling as
soon as the new `y` meets or exceeds it. -/
def countdownAux (maxWaitSeconds : Option Nat) : Nat → Nat → Nat → Nat
  | 0, _, y => y
  | n + 1, x, y =>
    match maxWaitSeconds with
    | some m => if x + y ≥ m then m else countdownAux maxWaitSeconds n y (x + y)
    | none => countdownAux maxWaitSeconds n y (x + y)

/-- `FibonacciBackoff.countdown`: starts from `x, y = 1, 1`. -/
def countdown (maxWaitSeconds : Option Nat) (retryCount : Nat) : Nat :=
  countdownAux maxWaitSeconds retryCount 1 1

end FibonacciBackoff

/-- An argument schema: `Validation = List[Tuple[str, Any]]` from the source.
`none` as the type stands for `typing.Any` (a parameter with no annotation). -/
abbrev Validation := List (String × Option PyType)

/-- `Message = Dict[str, Any]` from the source. -/
abbrev Message := List (String × Value)

/-- The errors a dispatch can raise.  `falcon.HTTPBadRequest` instances are
distinguished by their title, modelled as distinct constructors; `pyTypeError`
models an uncaught Python `TypeError` from subscripting a non-dict;
`preprocessorException` models an arbitrary exception raised inside a
preprocessor body. -/
inductive PError where
  | undefinedQueue : String → PError
  | undefinedTask : String → PError
  | emptyPayload : PError
  | notJson : PError
  | invalidJson : PError
  | missingField : String → PError
  | invalidType : String → PyType → PError
  | preprocessorException : PError
  | pyTypeError : PError
deriving DecidableEq

/-- `_validate` (`brokkoly/__init__.py` lines 134-149): walks the schema in
declaration order; `message[arg_name]` raises `KeyError` (caught, reported as
the missing-field bad request) on a dict without the key and `TypeError`
(uncaught) on a non-dict; a present value whose annotated type does not
`isinstance`-match is the invalid-type bad request; otherwise the value is
recorded and the rest of the schema is processed. -/
def «_validate» (message : Value) : Validation → Except PError Message
  | [] => .ok []
  | (n, ty) :: rest =>
    match message with
    | .vobj fields =>
      match dictGet fields n with
      | none => .error (.missingField n)
      | some v =>
        match ty with
        | some t =>
          if isinstance v t then Except.map (fun r => (n, v) :: r) («_validate» message rest)
          else .error (.invalidType n t)
        | none => Except.map (fun r => (n, v) :: r) («_validate» message rest)
    | _ => .error .pyTypeError

/-- One check of the Validator contract as the specification words it
(section 4.2): an entry fails with the missing-field error if its name is
absent from the message, with the type-mismatch error if the declared type is
not "any" and the value's runtime type does not match, and passes otherwise. -/
def entryCheckSpec (fields : Message) (e : String × Option PyType) : Option PError :=
  match dictGet fields e.1 with
  | none => some (.missingField e.1)
  | some v =>
    match e.2 with
    | none => none
    | some t => if isinstance v t then none else some (.invalidType e.1 t)

/-- The Validator contract as the specification words it: checks run in the
schema's declaration order and the first failure is the one reported; on
success the result maps exactly the schema's declared names to their message
values (extra message fields are silently dropped). -/
def validateSpec (fields : Message) (validation : Validation) : Except PError Message :=
  match validation.findSome? (entryCheckSpec fields) with
  | some e => .error e
  | none => .ok (validation.filterMap (fun e => (dictGet fields e.1).map (fun v => (e.1, v))))

/-- A registered processor: the callable together with its derived argument
schema (`Processor = namedtuple('Processor', ['func', 'validation'])`).  The
callable receives the validated arguments and either returns the next message
value or raises. -/
structure Processor where
  func : Message → Except Unit Value
  validation : Validation

/-- One entry of the task registry: what `Brokkoly.task` stores under
`_tasks[queue][name]` — the task's own schema and the ordered preprocessor
list.  The stored celery task object itself is only ever passed to
`apply_async`, which the effect trace records. -/
structure TaskEntry where
  validation : Validation
  preprocessors : List Processor

/-- The process-wide registry `_tasks : defaultdict(dict)`, queue name →
task name → entry, in insertion order. -/
abbrev Registry := List (String × List (String × TaskEntry))

/-- `_tasks[name]` on the defaultdict: returns the registry unchanged when the
queue exists, otherwise inserts an empty task dict for it. -/
def defaultdictAccess (reg : Registry) (name : String) : Registry :=
  match dictGet reg name with
  | some _ => reg
  | none => reg ++ [(name, [])]

/-- Python `name.startswith('_')`: for a one-character prefix this is exactly
a test on the first character. -/
def startsWithUnderscore (name : String) : Bool :=
  match name.data with
  | [] => false
  | c :: _ => c = '_'

/-- `Brokkoly.__init__` (`brokkoly/__init__.py` lines 53-60): rejects a queue
name starting with the reserved underscore, then touches `_tasks[name]`,
which creates the queue's (empty) task dict as a side effect. -/
def brokkolyInit (reg : Registry) (name : String) : Except Unit Registry :=
  if startsWithUnderscore name then .error () else .ok (defaultdictAccess reg name)

/-- `Producer._validate_queue_and_task` (lines 177-188): an `in`-check first
(so the defaultdict is not mutated), raising the undefined-queue bad request,
then the task lookup raising the undefined-task bad request. -/
def «_validate_queue_and_task» (reg : Registry) (queueName taskName : String) :
    Except PError TaskEntry :=
  match dictGet reg queueName with
  | none => .error (.undefinedQueue queueName)
  | some queueTasks =>
    match dictGet queueTasks taskName with
    | none => .error (.undefinedTask taskName)
    | some entry => .ok entry

/-- The raw HTTP body as `_validate_payload` sees it: empty, undecodable as
JSON, a JSON object, or a JSON value of another shape. -/
inductive RawPayload where
  | empty : RawPayload
  | notJson : RawPayload
  | obj : Message → RawPayload
  | nonObj : Value → RawPayload

/-- `Producer._validate_payload` (lines 190-200). -/
def «_validate_payload» : RawPayload → Except PError Value
  | .empty => .error .emptyPayload
  | .notJson => .error .notJson
  | .obj fields => .ok (.vobj fields)
  | .nonObj v => .ok v

/-- `payload['message']` in `on_post`: `KeyError` is caught and reported as
the invalid-JSON bad request; subscripting a non-dict payload raises
`TypeError`. -/
def payloadMessage : Value → Except PError Value
  | .vobj fields =>
    match dictGet fields "message" with
    | some m => .ok m
    | none => .error .invalidJson
  | _ => .error .pyTypeError

/-- `payload.get('delay', 0)` in `on_post`. -/
def payloadDelay : Value → Value
  | .vobj fields => (dictGet fields "delay").getD (.vint 0)
  | _ => .vint 0

/-- `Producer._recurse` (lines 171-175): validate the current message against
the head preprocessor's schema, invoke it, feed its result to the tail; an
empty chain passes the message through. -/
def «_recurse» (message : Value) : List Processor → Except PError Value
  | [] => .ok message
  | p :: tail =>
    match «_validate» message p.validation with
    | .error e => .error e
    | .ok validated =>
      match p.func validated with
      | .error _ => .error .preprocessorException
      | .ok next => «_recurse» next tail

/-- The observable side effects of a dispatch: `MessageLog.create`,
`task.apply_async` (with the validated post-chain arguments and the scheduling
delay), and `MessageLog.eliminate`. -/
inductive Effect where
  | logCreated : String → String → Value → Effect
  | applyAsync : Message → Value → Effect
  | eliminate : String → String → Effect

/-- The argument expression of `apply_async` in `on_post`:
`_validate(self._recurse(message, preprocessors), validation)`. -/
def dispatchArgs (entry : TaskEntry) (message : Value) : Except PError Message :=
  match «_recurse» message entry.preprocessors with
  | .error e => .error e
  | .ok folded => «_validate» folded entry.validation

/-- `Producer.on_post` (lines 202-229) with its effect trace.  Note the source
order: `MessageLog.create` runs at line 214, before the preprocessor fold and
the final validation, which are evaluated as an argument of `apply_async` at
line 221 — so a fold/validation failure raises after the log row exists but
before any broker submission. -/
def on_post (reg : Registry) (queueName taskName : String) (raw : RawPayload) :
    Except PError Unit × List Effect :=
  match «_validate_queue_and_task» reg queueName taskName with
  | .error e => (.error e, [])
  | .ok entry =>
    match «_validate_payload» raw with
    | .error e => (.error e, [])
    | .ok payload =>
      match payloadMessage payload with
      | .error e => (.error e, [])
      | .ok message =>
        match dispatchArgs entry message with
        | .error e => (.error e, [.logCreated queueName taskName message])
        | .ok args =>
          (.ok (), [.logCreated queueName taskName message,
                    .applyAsync args (payloadDelay payload),
                    .eliminate queueName taskName])

/-- `TaskListResource._list_task_name` (lines 263-267): `none` models the
`KeyError` raised for a queue absent from `_tasks`. -/
def «_list_task_name» (reg : Registry) (queueName : String) : Option (List String) :=
  (dictGet reg queueName).map (fun tasks => tasks.map Prod.fst)

/-- Insertion step of the sort modelling Python `sorted`. -/
def insertSorted (s : String) : List String → List String
  | [] => [s]
  | t :: rest => if s ≤ t then s :: t :: rest else t :: insertSorted s rest

/-- Insertion sort on strings, modelling Python `sorted`. -/
def sortStrings : List String → List String
  | [] => []
  | s :: rest => insertSorted s (sortStrings rest)

/-- `QueueListResource._list_queue_name` (lines 278-279):
`sorted(_tasks.keys())`. -/
def «_list_queue_name» (reg : Registry) : List String :=
  sortStrings (reg.map Prod.fst)

/-- A retry policy as the worker wrapper consumes it: `max_retries` and
`countdown(retry_count, error)` (errors carried as strings). -/
structure RetryPolicyM where
  maxRetries : Nat
  countdown : Nat → String → Nat

/-- Connection and delivery-log operations performed by one invocation of the
worker wrapper, in order: `message_log.complete()`, `connection.commit()`,
`connection.close()`, and `celery_task.retry(countdown, max_retries)`. -/
inductive WEvent where
  | complete : WEvent
  | commit : WEvent
  | close : WEvent
  | retryCall : Nat → Nat → WEvent
deriving DecidableEq

/-- How one invocation of the wrapper terminates: a normal Python return
(the task result, or `None` on the swallowed-exhaustion path), the task error
re-raised (`raise` on the no-policy path), or the `celery.exceptions.Retry`
control signal re-raised. -/
inductive HandleResult where
  | returned : Option Value → HandleResult
  | raisedTaskError : String → HandleResult
  | raisedRetrySignal : HandleResult

/-- One invocation of the worker wrapper `handle`
(`brokkoly/__init__.py` lines 79-109).  `taskResult` is the outcome of
`f(**args)`; `brokerAccepts` says whether `celery_task.retry` raises
`celery.exceptions.Retry` (reschedule accepted) or re-raises the task error
(retries exhausted), a decision the broker makes.  The event list is the
ordered trace of log/connection operations. -/
def handle (taskResult : Except String Value) (policy : Option RetryPolicyM)
    (retries : Nat) (brokerAccepts : Bool) : HandleResult × List WEvent :=
  match taskResult with
  | .ok v => (.returned (some v), [.complete, .commit, .close])
  | .error e =>
    match policy with
    | none => (.raisedTaskError e, [])
    | some p =>
      let rc := WEvent.retryCall (p.countdown retries e) p.maxRetries
      if brokerAccepts then
        (.raisedRetrySignal, [rc, .close])
      else
        (.returned none, [rc, .complete, .commit, .close])

/-- Modelled from the spec: the broker collaborator's `scheduleRetry` contract
(section 6) — celery accepts a reschedule while the current attempt's
`request.retries` is below `max_retries`, and reports exhaustion otherwise.
The broker itself is an external collaborator, not part of this repository. -/
def brokerAcceptsRetry (p : RetryPolicyM) (retries : Nat) : Bool :=
  retries < p.maxRetries

/-- How a whole run of a submitted message terminates: the last attempt
returned normally, the last attempt re-raised the task error, or the supplied
attempt outcomes ran out while a reschedule was still pending. -/
inductive RunOutcome where
  | finished : Option Value → RunOutcome
  | fatal : String → RunOutcome
  | pending : RunOutcome

/-- Drives the wrapper across the attempts of one submitted message:
`results` lists each attempt's task-body outcome, `retries` is the current
attempt's `request.retries` (0 on the first delivery, incremented by each
accepted reschedule).  Events are tagged with the attempt index. -/
def runFrom (policy : Option RetryPolicyM) (retries : Nat) :
    List (Except String Value) → List (Nat × WEvent) × RunOutcome
  | [] => ([], .pending)
  | r :: rest =>
    let accepts := match policy with
      | some p => brokerAcceptsRetry p retries
      | none => false
    let step := handle r policy retries accepts
    match step.1 with
    | .raisedRetrySignal =>
      let next := runFrom policy (retries + 1) rest
      (step.2.map (fun e => (retries, e)) ++ next.1, next.2)
    | .returned v => (step.2.map (fun e => (retries, e)), .finished v)
    | .raisedTaskError e => (step.2.map (fun e2 => (retries, e2)), .fatal e)

/-- A full run starting from the first delivery (`request.retries = 0`). -/
def runTask (policy : Option RetryPolicyM) (results : List (Except String Value)) :
    List (Nat × WEvent) × RunOutcome :=
  runFrom policy 0 results

/-- C1: the claim says `ExponentialBackoff.countdown` returns `2^(i+1)` when
that does not exceed the ceiling and the ceiling otherwise, with
`countdown(2) = 5` under ceiling 5.  The source comparison is reversed
(`return wait if self._max_wait_seconds < wait else self._max_wait_seconds`),
so the code returns the larger of the two values, contradicting its own
docstring (`countdown method doesn't return number greater than this
numbers`): with ceiling 5 attempt 2 yields 8, and with ceiling 100 attempt 0
yields 100 instead of 2. -/
theorem c1_exponential_ceiling_eval :
    ExponentialBackoff.countdown (some 5) 2 = some 8 ∧
    ExponentialBackoff.countdown (some 100) 0 = some 100 :=
  ⟨rfl, rfl⟩

/-- C6: the claim says `ExponentialBackoff.countdown` with no ceiling is total
and yields 2, 4, 8.  In the source, `self._max_wait_seconds < wait` with
`max_wait_seconds = None` raises `TypeError` on every call (modelled by
`none`), contradicting the class's own docstring
(`Wait for 2 second, 4 seconds, 8 seconds, 16 seconds ...`). -/
theorem c6_exponential_none_raises :
    ExponentialBackoff.countdown none 0 = none ∧
    ExponentialBackoff.countdown none 1 = none ∧
    ExponentialBackoff.countdown none 2 = none :=
  ⟨rfl, rfl, rfl⟩

/-- As long as the running Fibonacci value stays at or below the ceiling, the
bounded loop returns the ceiling whenever the unbounded loop's final value
would meet or exceed it. -/
theorem fibonacci_aux_ceiling (m : Nat) :
    ∀ (n x y : Nat), y ≤ m → m ≤ FibonacciBackoff.countdownAux none n x y →
      FibonacciBackoff.countdownAux (some m) n x y = m := by
  intro n
  induction n with
  | zero =>
    intro x y h1 h2
    simp only [FibonacciBackoff.countdownAux] at h2 ⊢
    omega
  | succ n ih =>
    intro x y h1 h2
    simp only [FibonacciBackoff.countdownAux] at h2 ⊢
    by_cases hc : x + y ≥ m
    · simp [hc]
    · simp only [hc, if_false]
      exact ih y (x + y) (by omega) h2

/-- C7: `FibonacciBackoff.countdown` yields 1, 2, 3, 5, 8, 13, 21, 34, 55, 89
for attempts 0..9 with no ceiling, and 1, 2, 3, 5, 8, 13, 21, 34, 55, 80 with
ceiling 80; whenever the unbounded value would meet or exceed a (positive)
ceiling, the bounded variant returns the ceiling. -/
theorem c7_fibonacci_countdown :
    ((List.range 10).map (FibonacciBackoff.countdown none) =
      [1, 2, 3, 5, 8, 13, 21, 34, 55, 89]) ∧
    ((List.range 10).map (FibonacciBackoff.countdown (some 80)) =
      [1, 2, 3, 5, 8, 13, 21, 34, 55, 80]) ∧
    ∀ m i, 1 ≤ m → m ≤ FibonacciBackoff.countdown none i →
      FibonacciBackoff.countdown (some m) i = m := by
  refine ⟨by decide, by decide, ?_⟩
  intro m i h1 h2
  exact fibonacci_aux_ceiling m i 1 1 h1 h2

/-- Witness for C7 at the concrete ceiling 80 and attempt 9. -/
theorem c7_fibonacci_countdown_witness :
    FibonacciBackoff.countdown (some 80) 9 = 80 :=
  c7_fibonacci_countdown.2.2 80 9 (by decide) (by decide)

/-- C8: `_validate` realises the Validator contract exactly as the spec words
it — fields are checked in the schema's declaration order, the first failure
(missing field, then type mismatch for a non-`Any` annotation) is the one
reported, and on success the result maps exactly the schema's declared names
to their message values, silently dropping extra message fields. -/
theorem c8_validate_matches_spec : ∀ (fields : Message) (validation : Validation),
    «_validate» (Value.vobj fields) validation = validateSpec fields validation := by
  intro fields validation
  induction validation with
  | nil => rfl
  | cons e rest ih =>
    obtain ⟨n, ty⟩ := e
    cases hv : dictGet fields n with
    | none =>
      simp [«_validate», validateSpec, entryCheckSpec, hv, List.findSome?_cons]
    | some v =>
      cases ty with
      | none =>
        simp only [«_validate», hv, ih, validateSpec, entryCheckSpec,
          List.findSome?_cons, List.filterMap_cons]
        cases hr : List.findSome? (entryCheckSpec fields) rest with
        | none => simp [hr, hv, Except.map]
        | some err => simp [hr, Except.map]
      | some t =>
        by_cases hi : isinstance v t
        · simp only [«_validate», hv, hi, if_true, ih, validateSpec, entryCheckSpec,
            List.findSome?_cons, List.filterMap_cons]
          cases hr : List.findSome? (entryCheckSpec fields) rest with
          | none => simp [hr, hv, Except.map]
          | some err => simp [hr, Except.map]
        · simp [«_validate», validateSpec, entryCheckSpec, hv, hi, List.findSome?_cons]

/-- C9: submitting to an unregistered queue fails with the undefined-queue
error and submitting a task unknown within a registered queue fails with the
undefined-task error, in both cases with an empty effect trace and for every
payload whatsoever (the lookup runs before the payload is touched); the two
errors are distinguishable by kind. -/
theorem c9_lookup_errors : ∀ (reg : Registry) (q t : String) (raw : RawPayload),
    (dictGet reg q = none →
      on_post reg q t raw = (.error (.undefinedQueue q), [])) ∧
    (∀ tasks, dictGet reg q = some tasks → dictGet tasks t = none →
      on_post reg q t raw = (.error (.undefinedTask t), [])) ∧
    (∀ q2 t2, PError.undefinedQueue q2 ≠ PError.undefinedTask t2) := by
  intro reg q t raw
  refine ⟨?_, ?_, ?_⟩
  · intro h
    simp [on_post, «_validate_queue_and_task», h]
  · intro tasks h1 h2
    simp [on_post, «_validate_queue_and_task», h1, h2]
  · intro q2 t2 h
    cases h

/-- Witness for C9: queue `ghost` is unknown in a registry holding only
`emails`, while task `run` is unknown within the registered queue `emails`. -/
theorem c9_lookup_errors_witness :
    on_post [("emails", [])] "ghost" "run" RawPayload.empty =
      (.error (.undefinedQueue "ghost"), []) ∧
    on_post [("emails", [])] "emails" "run" RawPayload.empty =
      (.error (.undefinedTask "run"), []) :=
  ⟨(c9_lookup_errors [("emails", [])] "ghost" "run" .empty).1 rfl,
   (c9_lookup_errors [("emails", [])] "emails" "run" .empty).2.1 [] rfl rfl⟩

/-- Appending a fresh key to a dict makes it retrievable. -/
theorem dictGet_append_fresh {α : Type} (l : List (String × α)) (k : String) (v : α)
    (h : dictGet l k = none) : dictGet (l ++ [(k, v)]) k = some v := by
  induction l with
  | nil => simp [dictGet]
  | cons p rest ih =>
    obtain ⟨k2, v2⟩ := p
    by_cases hk : k2 = k
    · simp [dictGet, hk] at h
    · simp [dictGet, hk] at h ⊢
      exact ih h

/-- Membership is preserved by the insertion step of the sort. -/
theorem mem_insertSorted (a s : String) (l : List String) :
    a ∈ insertSorted s l ↔ a = s ∨ a ∈ l := by
  induction l with
  | nil => simp [insertSorted]
  | cons t rest ih =>
    by_cases hle : s ≤ t
    · simp [insertSorted, hle]
    · simp [insertSorted, hle, ih]
      tauto

/-- Sorting preserves membership. -/
theorem mem_sortStrings (a : String) (l : List String) :
    a ∈ sortStrings l ↔ a ∈ l := by
  induction l with
  | nil => simp [sortStrings]
  | cons s rest ih => simp [sortStrings, mem_insertSorted, ih]

/-- C10: constructing a `Brokkoly` instance for a fresh, non-reserved queue
name inserts that queue into the process-wide registry with no tasks:
afterwards the queue appears in the queue listing, any task submission to it
fails with the undefined-task (not undefined-queue) error, and the task
listing returns an empty sequence instead of a missing-queue error. -/
theorem c10_init_registers_queue : ∀ (reg : Registry) (name : String),
    startsWithUnderscore name = false → dictGet reg name = none →
    brokkolyInit reg name = .ok (reg ++ [(name, [])]) ∧
    name ∈ «_list_queue_name» (reg ++ [(name, [])]) ∧
    (∀ t, «_validate_queue_and_task» (reg ++ [(name, [])]) name t =
      .error (.undefinedTask t)) ∧
    «_list_task_name» (reg ++ [(name, [])]) name = some [] := by
  intro reg name h1 h2
  have hget : dictGet (reg ++ [(name, [])]) name = some [] :=
    dictGet_append_fresh reg name [] h2
  refine ⟨?_, ?_, ?_, ?_⟩
  · simp [brokkolyInit, h1, defaultdictAccess, h2]
  · simp [«_list_queue_name», mem_sortStrings]
  · intro t
    simp [«_validate_queue_and_task», hget, dictGet]
  · simp [«_list_task_name», hget]

/-- A preprocessor requiring a string field `text` (its body never runs when
validation fails). -/
def preprocNeedsText : Processor :=
  { func := fun _ => .ok (.vobj []), validation := [("text", some PyType.str)] }

/-- A registry with queue `q` holding task `t`, whose single preprocessor
requires the field `text`. -/
def regNeedsText : Registry :=
  [("q", [("t", { validation := [], preprocessors := [preprocNeedsText] })])]

/-- C2 counterexample: dispatching the message `{}` to a task whose
preprocessor requires `text` fails the preprocessor's validation, yet the
delivery-log entry has already been created — the claim that no log entry
exists for the failed submission is false.  (`MessageLog.create` runs at line
214, before the fold/validation evaluated at line 221.) -/
theorem c2_log_created_before_validation_counterexample :
    (on_post regNeedsText "q" "t" (RawPayload.obj [("message", Value.vobj [])])).1 =
      .error (.missingField "text") ∧
    Effect.logCreated "q" "t" (Value.vobj []) ∈
      (on_post regNeedsText "q" "t" (RawPayload.obj [("message", Value.vobj [])])).2 := by
  refine ⟨rfl, ?_⟩
  show Effect.logCreated "q" "t" (Value.vobj []) ∈
    [Effect.logCreated "q" "t" (Value.vobj [])]
  exact List.mem_singleton.mpr rfl

/-- C2 (amended): when a preprocessor's validation, a preprocessor's
execution, or the final task-schema validation fails, the dispatch aborts
before any broker submission and before any log pruning — but the
delivery-log entry has already been created, so the trace of the failed
dispatch is exactly that one log-creation effect. -/
theorem c2_validation_failure_aborts_after_log : ∀ (reg : Registry) (q t : String)
    (raw : RawPayload) (entry : TaskEntry) (payload message : Value) (e : PError),
    «_validate_queue_and_task» reg q t = .ok entry →
    «_validate_payload» raw = .ok payload →
    payloadMessage payload = .ok message →
    dispatchArgs entry message = .error e →
    on_post reg q t raw = (.error e, [.logCreated q t message]) := by
  intro reg q t raw entry payload message e h1 h2 h3 h4
  simp [on_post, h1, h2, h3, h4]

/-- Witness for the amended C2 at the concrete failing dispatch. -/
theorem c2_validation_failure_aborts_after_log_witness :
    on_post regNeedsText "q" "t" (RawPayload.obj [("message", Value.vobj [])]) =
      (.error (.missingField "text"), [.logCreated "q" "t" (Value.vobj [])]) :=
  c2_validation_failure_aborts_after_log regNeedsText "q" "t"
    (RawPayload.obj [("message", Value.vobj [])])
    { validation := [], preprocessors := [preprocNeedsText] }
    (Value.vobj [("message", Value.vobj [])]) (Value.vobj [])
    (.missingField "text") rfl rfl rfl rfl

/-- Witness for C10: a fresh queue `emails` in an empty registry. -/
theorem c10_init_registers_queue_witness :
    brokkolyInit [] "emails" = .ok [("emails", [])] ∧
    «_validate_queue_and_task» [("emails", [])] "emails" "run" =
      .error (.undefinedTask "run") ∧
    «_list_task_name» [("emails", [])] "emails" = some [] :=
  ⟨(c10_init_registers_queue [] "emails" (by decide) rfl).1,
   (c10_init_registers_queue [] "emails" (by decide) rfl).2.2.1 "run",
   (c10_init_registers_queue [] "emails" (by decide) rfl).2.2.2⟩

/-- C3 counterexample: when the task body raises and no retry policy is
configured, the wrapper re-raises at once (`if not retry_policy: raise`): the
connection is closed zero times, not once, and no commit happens — the
claimed success-path commit/close does not occur. -/
theorem c3_no_policy_skips_close_counterexample :
    (handle (Except.error "boom") none 0 false).2.count WEvent.close = 0 ∧
    WEvent.commit ∉ (handle (Except.error "boom") none 0 false).2 ∧
    (handle (Except.error "boom") none 0 false).1 = HandleResult.raisedTaskError "boom" := by
  refine ⟨rfl, ?_, rfl⟩
  show WEvent.commit ∉ ([] : List WEvent)
  simp

/-- C3 (amended): on every exit path of the wrapper except the
task-failure-without-retry-policy path, the connection is closed exactly once;
on that path the original task error propagates to the broker with no commit
and no close at all. -/
theorem c3_close_exactly_once : ∀ (r : Except String Value)
    (p : Option RetryPolicyM) (n : Nat) (b : Bool),
    (handle r p n b).2.count WEvent.close = 1 ∨
    (∃ e, r = .error e ∧ p = none ∧
      handle r p n b = (.raisedTaskError e, [])) := by
  intro r p n b
  cases r with
  | ok v => left; rfl
  | error e =>
    cases p with
    | none => right; exact ⟨e, rfl, rfl, rfl⟩
    | some pol =>
      left
      cases b <;> simp [handle, List.count_cons]

/-- The always-failing task of the exhaustion scenario: both delivery attempts
raise. -/
def alwaysFailTwice : List (Except String Value) :=
  [.error "boom", .error "boom"]

/-- A retry policy with `max_retries = 1` (countdown value irrelevant to the
delivery-log claims). -/
def policyOneRetry : RetryPolicyM :=
  { maxRetries := 1, countdown := fun _ _ => 1 }

/-- C4 counterexample: under `max_retries = 1` an always-failing task ends
with the wrapper returning `None` — the exhaustion exception raised by
`celery_task.retry` is caught by the bare `except Exception` branch and never
re-raised, so the original task error is not surfaced. -/
theorem c4_error_swallowed_counterexample :
    (runTask (some policyOneRetry) alwaysFailTwice).2 = RunOutcome.finished none ∧
    RunOutcome.finished none ≠ RunOutcome.fatal "boom" := by
  refine ⟨rfl, ?_⟩
  intro h
  cases h

/-- C4 (amended): a task that always fails under a policy with
`max_retries = 1` produces exactly one `markCompleted` call, on the attempt
where the broker reports retries exhausted (attempt index 1), after which the
wrapper commits, closes, and returns `None` — swallowing the original task
error instead of surfacing it. -/
theorem c4_exhaustion_completes_once :
    (runTask (some policyOneRetry) alwaysFailTwice).1 =
      [(0, .retryCall 1 1), (0, .close),
       (1, .retryCall 1 1), (1, .complete), (1, .commit), (1, .close)] ∧
    ((runTask (some policyOneRetry) alwaysFailTwice).1.map Prod.snd).count
      WEvent.complete = 1 ∧
    (runTask (some policyOneRetry) alwaysFailTwice).2 = RunOutcome.finished none :=
  ⟨rfl, rfl, rfl⟩

/-- The fails-twice-then-succeeds task of the idempotence scenario. -/
def failFailSucceed : List (Except String Value) :=
  [.error "e1", .error "e2", .ok (.vstr "done")]

/-- A retry policy allowing two retries. -/
def policyTwoRetries : RetryPolicyM :=
  { maxRetries := 2, countdown := fun _ _ => 1 }

/-- Over any run of a submitted message, `complete` is recorded at most
once: rescheduled attempts record none, and an attempt that records one
terminates the run. -/
theorem runFrom_complete_at_most_once (p : Option RetryPolicyM) :
    ∀ (results : List (Except String Value)) (n : Nat),
      ((runFrom p n results).1.map Prod.snd).count WEvent.complete ≤ 1 := by
  intro results
  induction results with
  | nil => intro n; simp [runFrom]
  | cons r rest ih =>
    intro n
    cases r with
    | ok v => simp [runFrom, handle, List.count_cons]
    | error e =>
      cases p with
      | none => simp [runFrom, handle]
      | some pol =>
        by_cases hb : brokerAcceptsRetry pol n
        · simpa [runFrom, handle, hb, List.count_cons] using ih (n + 1)
        · simp [runFrom, handle, hb, List.count_cons]

/-- C5: in the fails-twice-then-succeeds run under a policy allowing two
retries, `complete` is recorded exactly once, on the third (successful)
attempt and on neither of the first two; a reschedule-accepted exit records
neither `complete` nor `commit`; and across every run of every policy,
`complete` is recorded at most once. -/
theorem c5_completion_idempotent :
    ((runTask (some policyTwoRetries) failFailSucceed).1.map Prod.snd).count
      WEvent.complete = 1 ∧
    (runTask (some policyTwoRetries) failFailSucceed).1.filter
      (fun p => p.2 == WEvent.complete) = [(2, WEvent.complete)] ∧
    (runTask (some policyTwoRetries) failFailSucceed).2 =
      RunOutcome.finished (some (Value.vstr "done")) ∧
    (∀ (s : String) (p : RetryPolicyM) (n : Nat),
      WEvent.complete ∉ (handle (Except.error s) (some p) n true).2 ∧
      WEvent.commit ∉ (handle (Except.error s) (some p) n true).2) ∧
    ∀ (p : Option RetryPolicyM) (results : List (Except String Value)),
      ((runTask p results).1.map Prod.snd).count WEvent.complete ≤ 1 := by
  refine ⟨rfl, rfl, rfl, ?_, ?_⟩
  · intro s p n
    constructor <;> simp [handle]
  · intro p results
    exact runFrom_complete_at_most_once p results 0

